import Mathlib

/-!
# harmony-ops: daemon command gateway and process entry point

A shallow embedding of

* `monitoring/daemons/harmony-monitor/node-metadata-watcher/daemon-cmds.go`
  (the constants `installD` .. `statusD`, the wrapper methods `install`, `remove`,
  `stop`, `status`, and the registry `daemonCmds`), and
* `monitoring/harmony-monitor/blockchain-watchdog/main.go` (the function `main`).

Go code with side effects is embedded as pure functions on an explicit provider
state that also return the ordered list of effects they performed.  A Go `error`
result is an `Option`: `none` is `nil`.
-/

namespace HarmonyOps

/-! ## Data model -/

/-- Go's `error` interface: a value that has an `Error() string` method. -/
class GoError (ε : Type) where
  Error : ε → String

/-- The five operations the Service Provider exposes. -/
inductive Op
  | Install
  | Remove
  | Start
  | Stop
  | Status
  deriving DecidableEq, Repr

/-- What a command handler can do to the outside world: call one operation of the
Service Provider, or perform one write on standard output. -/
inductive Effect
  | call (op : Op)
  | stdout (s : String)
  deriving DecidableEq, Repr

/-- The Service Provider (`*Service` in `daemon-cmds.go`; its declaration is not in the
file, so it is a parameter).  Each operation has the Go signature `() (string, error)`;
`σ` is whatever state the provider owns. -/
structure Service (σ ε : Type) where
  Install : σ → (String × Option ε) × σ
  Remove : σ → (String × Option ε) × σ
  Start : σ → (String × Option ε) × σ
  Stop : σ → (String × Option ε) × σ
  Status : σ → (String × Option ε) × σ

/-- The result of running a handler (or a whole command execution): the returned
`error`, the provider state afterwards, and the effects performed, in order. -/
structure Run (σ ε : Type) where
  err : Option ε
  state : σ
  effects : List Effect

/-- The `*cobra.Command` a handler receives as its first argument. -/
structure CmdRef where
  Use : String
  Short : String
  deriving DecidableEq, Repr

/-- Go type `func(cmd *cobra.Command, args []string) error`. -/
abbrev Handler (σ ε : Type) : Type := CmdRef → List String → σ → Run σ ε

/-- The fields of `cobra.Command` that `daemonCmds` sets. -/
structure Command (σ ε : Type) where
  Use : String
  Short : String
  RunE : Handler σ ε

/-- Go `type cobraSrvWrapper struct { *Service }`. -/
structure cobraSrvWrapper (σ ε : Type) where
  Service : Service σ ε

/-- The write `fmt.Println(a)` performs on standard output for a string `a`: the
operand followed by a newline, in one write. -/
def fmt_Println (a : String) : Effect :=
  Effect.stdout (a ++ "\n")

/-! ## daemon-cmds.go -/

def installD : String := "install the harmony-watchdog service"

def removeD : String := "remove the harmony-watchdog service"

def startD : String := "start the harmony-watchdog service"

def stopD : String := "stop the harmony-watchdog service"

def statusD : String := "check status of the harmony-watchdog service"

/-- Go `func (cw *cobraSrvWrapper) install(cmd *cobra.Command, args []string) error`. -/
def cobraSrvWrapper.install {σ ε : Type} (cw : cobraSrvWrapper σ ε) : Handler σ ε :=
  fun _cmd _args s =>
    -- r, err := cw.Install()
    let res := cw.Service.Install s
    let r := res.1.1
    let err := res.1.2
    match err with
    | some e => { err := some e, state := res.2, effects := [Effect.call Op.Install] }
    | none => { err := none, state := res.2, effects := [Effect.call Op.Install, fmt_Println r] }

/-- Go `func (cw *cobraSrvWrapper) remove(cmd *cobra.Command, args []string) error`. -/
def cobraSrvWrapper.remove {σ ε : Type} (cw : cobraSrvWrapper σ ε) : Handler σ ε :=
  fun _cmd _args s =>
    -- r, err := cw.Remove()
    let res := cw.Service.Remove s
    let r := res.1.1
    let err := res.1.2
    match err with
    | some e => { err := some e, state := res.2, effects := [Effect.call Op.Remove] }
    | none => { err := none, state := res.2, effects := [Effect.call Op.Remove, fmt_Println r] }

/-- Go `func (cw *cobraSrvWrapper) stop(cmd *cobra.Command, args []string) error`. -/
def cobraSrvWrapper.stop {σ ε : Type} (cw : cobraSrvWrapper σ ε) : Handler σ ε :=
  fun _cmd _args s =>
    -- r, err := cw.Stop()
    let res := cw.Service.Stop s
    let r := res.1.1
    let err := res.1.2
    match err with
    | some e => { err := some e, state := res.2, effects := [Effect.call Op.Stop] }
    | none => { err := none, state := res.2, effects := [Effect.call Op.Stop, fmt_Println r] }

/-- Go `func (cw *cobraSrvWrapper) status(cmd *cobra.Command, args []string) error`. -/
def cobraSrvWrapper.status {σ ε : Type} (cw : cobraSrvWrapper σ ε) : Handler σ ε :=
  fun _cmd _args s =>
    -- r, err := cw.Status()
    let res := cw.Service.Status s
    let r := res.1.1
    let err := res.1.2
    match err with
    | some e => { err := some e, state := res.2, effects := [Effect.call Op.Status] }
    | none => { err := none, state := res.2, effects := [Effect.call Op.Status, fmt_Println r] }

/-- Modelled from the spec: the method `start` of `cobraSrvWrapper`, which `daemonCmds`
references as `w.start`, is not defined in `daemon-cmds.go`.  The spec (4.1) gives one
contract for each of the five operations: call the corresponding Service Provider
operation exactly once; on Success(message) write the message to standard output once,
terminated by a newline, and report no error; on Failure(error) write nothing and report
the error unchanged. -/
def cobraSrvWrapper.start {σ ε : Type} (cw : cobraSrvWrapper σ ε) : Handler σ ε :=
  fun _cmd _args s =>
    let res := cw.Service.Start s
    let r := res.1.1
    let err := res.1.2
    match err with
    | some e => { err := some e, state := res.2, effects := [Effect.call Op.Start] }
    | none => { err := none, state := res.2, effects := [Effect.call Op.Start, fmt_Println r] }

/-- Go `func daemonCmds() []*cobra.Command`; the package-level wrapper `w` it reads is a
parameter. -/
def daemonCmds {σ ε : Type} (w : cobraSrvWrapper σ ε) : List (Command σ ε) :=
  let start : Command σ ε := { Use := "start", Short := startD, RunE := w.start }
  [ { Use := "install", Short := installD, RunE := w.install },
    { Use := "remove", Short := removeD, RunE := w.remove },
    start,
    { Use := "stop", Short := stopD, RunE := w.stop },
    { Use := "status", Short := statusD, RunE := w.status } ]

/-! ## main.go -/

/-- Profiling modes of `github.com/pkg/profile` (`main` uses `profile.CPUProfile`). -/
inductive ProfileMode
  | CPUProfile
  | MemProfile
  deriving DecidableEq, Repr

/-- The effects of the process entry point, in the order they happen.  What
`rootCmd.Execute()` did is nested inside its own event, so the writes `main` performs
itself are exactly the top-level `stdout` events. -/
inductive Event
  | profileStart (mode : ProfileMode)
  | profileStop
  | execute (effects : List Effect)
  | stdout (s : String)
  | osExit (code : Int)
  deriving DecidableEq, Repr

/-- A function call postponed by a `defer` statement. -/
inductive Deferred
  | profileStop
  deriving DecidableEq, Repr

/-- The state of the running process: provider state, the trace so far, the stack of
deferred calls of `main` (most recent first), and the code the process terminated
with (`none` while it is still running). -/
structure Proc (σ : Type) where
  svc : σ
  trace : List Event
  deferred : List Deferred
  exitCode : Option Int

/-- Append one event to the trace. -/
def Proc.emit {σ : Type} (ev : Event) (p : Proc σ) : Proc σ :=
  { p with trace := p.trace ++ [ev] }

/-- Library call `profile.Start(mode)`: the session starts now. -/
def profile_Start {σ : Type} (mode : ProfileMode) (p : Proc σ) : Proc σ :=
  p.emit (Event.profileStart mode)

/-- Go `defer f()`: push the call on the stack of deferred calls. -/
def deferCall {σ : Type} (d : Deferred) (p : Proc σ) : Proc σ :=
  { p with deferred := d :: p.deferred }

/-- Run one deferred call. -/
def runDeferred {σ : Type} (d : Deferred) (p : Proc σ) : Proc σ :=
  match d with
  | Deferred.profileStop => p.emit Event.profileStop

/-- Go `fmt.Println(a)` executed by `main`. -/
def Proc.Println {σ : Type} (a : String) (p : Proc σ) : Proc σ :=
  p.emit (Event.stdout (a ++ "\n"))

/-- Go `os.Exit(code)`: "the program terminates immediately; deferred functions are not
run". -/
def os_Exit {σ : Type} (code : Int) (p : Proc σ) : Proc σ :=
  { p.emit (Event.osExit code) with exitCode := some code }

/-- Function `main` returning normally: its deferred calls run, most recent first, and
the process then exits with code 0. -/
def returnFromMain {σ : Type} (p : Proc σ) : Proc σ :=
  let q := p.deferred.foldl (fun acc d => runDeferred d acc) p
  { q with deferred := [], exitCode := some 0 }

/-- Go `func main()`; `Execute` is `rootCmd.Execute` (declared outside `main.go`). -/
def main {σ ε : Type} [GoError ε] (Execute : σ → Run σ ε) (s0 : σ) : Proc σ :=
  let p0 : Proc σ := { svc := s0, trace := [], deferred := [], exitCode := none }
  -- defer profile.Start(profile.CPUProfile).Stop()
  let p1 := deferCall Deferred.profileStop (profile_Start ProfileMode.CPUProfile p0)
  -- if err := rootCmd.Execute(); err != nil
  let r := Execute p1.svc
  let p2 := Proc.emit (Event.execute r.effects) { p1 with svc := r.state }
  match r.err with
  | some err => os_Exit (-1) (p2.Println (GoError.Error err))
  | none => returnFromMain p2

/-- The exit status a POSIX shell observes: the low eight bits of the exit code. -/
def exitStatus {σ : Type} (p : Proc σ) : Option Nat :=
  p.exitCode.map (fun c => (c % 256).toNat)

/-- Modelled from the spec: `rootCmd` and the command dispatch of the CLI framework
(`rootCmd.Execute`) are not in `main.go` or `daemon-cmds.go`.  The spec (4.2, 7, 8.6)
says the entry point executes the selected subcommand based on the process arguments,
and that invoking the process with no subcommand, or with an unrecognized subcommand,
results in a DispatchFailure without calling any Service Provider operation.  `cmds` is
the command set, `dispatchFailure` builds the framework's error from the arguments. -/
def rootCmd_Execute {σ ε : Type} (cmds : List (Command σ ε))
    (dispatchFailure : List String → ε) (osArgs : List String) (s : σ) : Run σ ε :=
  match osArgs with
  | [] => { err := some (dispatchFailure []), state := s, effects := [] }
  | name :: rest =>
    match cmds.find? (fun c => c.Use == name) with
    | none => { err := some (dispatchFailure (name :: rest)), state := s, effects := [] }
    | some c => c.RunE { Use := c.Use, Short := c.Short } rest s

/-! ## Observations on runs and traces -/

/-- The Service Provider operations called, in order. -/
def callsOf (effects : List Effect) : List Op :=
  effects.filterMap (fun e => match e with
    | Effect.call op => some op
    | Effect.stdout _ => none)

/-- The writes made on standard output, in order. -/
def writesOf (effects : List Effect) : List String :=
  effects.filterMap (fun e => match e with
    | Effect.call _ => none
    | Effect.stdout s => some s)

/-- The writes `main` itself made on standard output (top-level events only). -/
def mainWrites (trace : List Event) : List String :=
  trace.filterMap (fun ev => match ev with
    | Event.stdout s => some s
    | _ => none)

/-- Every Service Provider operation called during the process, in order. -/
def serviceCalls (trace : List Event) : List Op :=
  (trace.map (fun ev => match ev with
    | Event.execute effects => callsOf effects
    | _ => [])).flatten

/-- The identifier of each operation, as the spec maps them. -/
def Op.ident : Op → String
  | Op.Install => "install"
  | Op.Remove => "remove"
  | Op.Start => "start"
  | Op.Stop => "stop"
  | Op.Status => "status"

/-- The operation of the Service Provider, by name. -/
def Service.op {σ ε : Type} (svc : Service σ ε) : Op → σ → (String × Option ε) × σ
  | Op.Install => svc.Install
  | Op.Remove => svc.Remove
  | Op.Start => svc.Start
  | Op.Stop => svc.Stop
  | Op.Status => svc.Status

/-- The wrapper method named after an operation. -/
def cobraSrvWrapper.method {σ ε : Type} (cw : cobraSrvWrapper σ ε) : Op → Handler σ ε
  | Op.Install => cw.install
  | Op.Remove => cw.remove
  | Op.Start => cw.start
  | Op.Stop => cw.stop
  | Op.Status => cw.status

/-- Whether an event is a call of `profile.Start`. -/
def Event.isProfileStart : Event → Bool
  | Event.profileStart _ => true
  | _ => false

/-- Whether an event is the call of `rootCmd.Execute`. -/
def Event.isExecute : Event → Bool
  | Event.execute _ => true
  | _ => false

/-- How often the profiling session was stopped. -/
def stopCount (trace : List Event) : Nat :=
  trace.count Event.profileStop

/-! ## Concrete instances used to exercise the theorems -/

instance : GoError String where
  Error := fun e => e

/-- A provider whose state counts the calls made; every operation succeeds with a fixed
message. -/
def okService : Service Nat String where
  Install := fun n => (("Install process of harmony-watchdog completed", none), n + 1)
  Remove := fun n => (("Removing harmony-watchdog completed", none), n + 1)
  Start := fun n => (("Starting harmony-watchdog completed", none), n + 1)
  Stop := fun n => (("Stopping harmony-watchdog completed", none), n + 1)
  Status := fun n => (("Service is running", none), n + 1)

/-- A provider whose every operation fails, with a message alongside the error. -/
def failService : Service Nat String where
  Install := fun n => (("Install failed", some "Service has already been installed"), n + 1)
  Remove := fun n => (("Remove failed", some "Service is not installed"), n + 1)
  Start := fun n => (("Start failed", some "Service is already running"), n + 1)
  Stop := fun n => (("Stop failed", some "Service has already been stopped"), n + 1)
  Status := fun n => (("Status failed", some "Service is not installed"), n + 1)

/-- A command execution that fails: the `install` handler over a provider that reports the
service as already installed. -/
def failingExecute : Nat → Run Nat String :=
  fun s => (cobraSrvWrapper.mk failService).install { Use := "install", Short := installD } [] s

/-- A command execution that succeeds: the `status` handler over a provider that reports
a running service. -/
def passingExecute : Nat → Run Nat String :=
  fun s => (cobraSrvWrapper.mk okService).status { Use := "status", Short := statusD } [] s

/-- The command dispatch failure used in examples. -/
def unknownCommand (osArgs : List String) : String :=
  "unknown command " ++ toString osArgs

/-! ## Command gateway: the handlers -/

/-- What any of the five wrapper methods does, in one equation: it calls its own
operation, and either passes the error on or prints the message. -/
theorem method_eq {σ ε : Type} (cw : cobraSrvWrapper σ ε) (op : Op) (cmd : CmdRef)
    (args : List String) (s : σ) :
    cw.method op cmd args s =
      match (cw.Service.op op s).1.2 with
      | some e => { err := some e, state := (cw.Service.op op s).2,
                    effects := [Effect.call op] }
      | none => { err := none, state := (cw.Service.op op s).2,
                  effects := [Effect.call op, fmt_Println (cw.Service.op op s).1.1] } := by
  cases op <;> rfl

/-- C2: for each of the five operations and every message `m`, if the Service Provider
operation returns Success(`m`) (message `m`, nil error), the wrapper method of that
operation returns nil and its writes on standard output are exactly one: `m` followed
by a newline. -/
theorem success_prints_message {σ ε : Type} (cw : cobraSrvWrapper σ ε) (op : Op)
    (cmd : CmdRef) (args : List String) (s s1 : σ) (m : String)
    (h : cw.Service.op op s = ((m, none), s1)) :
    (cw.method op cmd args s).err = none ∧
      writesOf (cw.method op cmd args s).effects = [m ++ "\n"] := by
  rw [method_eq, h]
  exact ⟨rfl, rfl⟩

/-- Witness of C2: the `status` command over a provider that reports a running service. -/
theorem success_prints_message_witness :
    okService.op Op.Status 0 = (("Service is running", none), 1) ∧
      ((cobraSrvWrapper.mk okService).method Op.Status
          { Use := "status", Short := statusD } [] 0).err = none ∧
      writesOf ((cobraSrvWrapper.mk okService).method Op.Status
          { Use := "status", Short := statusD } [] 0).effects = ["Service is running" ++ "\n"] :=
  ⟨rfl, success_prints_message (cobraSrvWrapper.mk okService) Op.Status
    { Use := "status", Short := statusD } [] 0 1 "Service is running" rfl⟩

/-- C3: for each of the five operations and every error `e`, if the Service Provider
operation returns Failure(`e`) (a non-nil error `e`, with any message `m` beside it), the
wrapper method of that operation returns exactly `e` and writes nothing on standard
output. -/
theorem failure_returns_error {σ ε : Type} (cw : cobraSrvWrapper σ ε) (op : Op)
    (cmd : CmdRef) (args : List String) (s s1 : σ) (m : String) (e : ε)
    (h : cw.Service.op op s = ((m, some e), s1)) :
    (cw.method op cmd args s).err = some e ∧
      writesOf (cw.method op cmd args s).effects = [] := by
  rw [method_eq, h]
  exact ⟨rfl, rfl⟩

/-- Witness of C3: the `remove` command over a provider that fails with a message beside
the error. -/
theorem failure_returns_error_witness :
    failService.op Op.Remove 0 = (("Remove failed", some "Service is not installed"), 1) ∧
      ((cobraSrvWrapper.mk failService).method Op.Remove
          { Use := "remove", Short := removeD } [] 0).err = some "Service is not installed" ∧
      writesOf ((cobraSrvWrapper.mk failService).method Op.Remove
          { Use := "remove", Short := removeD } [] 0).effects = [] :=
  ⟨rfl, failure_returns_error (cobraSrvWrapper.mk failService) Op.Remove
    { Use := "remove", Short := removeD } [] 0 1 "Remove failed" "Service is not installed" rfl⟩

/-- C7: each of the handlers `install`, `remove`, `stop`, `status` calls its own Service
Provider operation exactly once and no other operation, whether the operation succeeds or
fails; the number of its writes on standard output is one when the operation returned a
nil error and zero when it returned an error. -/
theorem handlers_call_once {σ ε : Type} (cw : cobraSrvWrapper σ ε) (cmd : CmdRef)
    (args : List String) (s : σ) :
    (callsOf (cw.install cmd args s).effects = [Op.Install] ∧
      (writesOf (cw.install cmd args s).effects).length =
        if (cw.Service.Install s).1.2.isSome then 0 else 1) ∧
    (callsOf (cw.remove cmd args s).effects = [Op.Remove] ∧
      (writesOf (cw.remove cmd args s).effects).length =
        if (cw.Service.Remove s).1.2.isSome then 0 else 1) ∧
    (callsOf (cw.stop cmd args s).effects = [Op.Stop] ∧
      (writesOf (cw.stop cmd args s).effects).length =
        if (cw.Service.Stop s).1.2.isSome then 0 else 1) ∧
    (callsOf (cw.status cmd args s).effects = [Op.Status] ∧
      (writesOf (cw.status cmd args s).effects).length =
        if (cw.Service.Status s).1.2.isSome then 0 else 1) := by
  refine ⟨?_, ?_, ?_, ?_⟩
  · unfold cobraSrvWrapper.install
    cases h : (cw.Service.Install s).1.2 <;> simp [h, callsOf, writesOf, fmt_Println]
  · unfold cobraSrvWrapper.remove
    cases h : (cw.Service.Remove s).1.2 <;> simp [h, callsOf, writesOf, fmt_Println]
  · unfold cobraSrvWrapper.stop
    cases h : (cw.Service.Stop s).1.2 <;> simp [h, callsOf, writesOf, fmt_Println]
  · unfold cobraSrvWrapper.status
    cases h : (cw.Service.Status s).1.2 <;> simp [h, callsOf, writesOf, fmt_Println]

/-! ## Command gateway: the registry -/

/-- C4: `daemonCmds` returns exactly five descriptors whose identifiers are, in order,
install, remove, start, stop, status; the identifiers are pairwise distinct; the handlers
are, in the same order, the wrapper methods `install`, `remove`, `start`, `stop`,
`status`; for every operation exactly one descriptor carries its identifier and that
descriptor is bound to the method of the same name; and the method of an operation calls
that operation and no other. -/
theorem daemonCmds_wiring {σ ε : Type} (w : cobraSrvWrapper σ ε) :
    (daemonCmds w).length = 5 ∧
    (daemonCmds w).map (fun c => c.Use) = ["install", "remove", "start", "stop", "status"] ∧
    ((daemonCmds w).map (fun c => c.Use)).Nodup ∧
    (daemonCmds w).map (fun c => c.RunE) = [w.install, w.remove, w.start, w.stop, w.status] ∧
    (daemonCmds w).map (fun c => c.Use) =
      [Op.Install, Op.Remove, Op.Start, Op.Stop, Op.Status].map Op.ident ∧
    (∀ op : Op, ((daemonCmds w).filter (fun c => c.Use == op.ident)).map (fun c => c.RunE) =
      [w.method op]) ∧
    (∀ (op : Op) (cmd : CmdRef) (args : List String) (s : σ),
      callsOf (w.method op cmd args s).effects = [op]) := by
  refine ⟨rfl, rfl, ?_, rfl, rfl, ?_, ?_⟩
  · show (["install", "remove", "start", "stop", "status"] : List String).Nodup
    decide
  · intro op
    cases op <;> simp [daemonCmds, Op.ident, cobraSrvWrapper.method]
  · intro op cmd args s
    rw [method_eq]
    cases h : (w.Service.op op s).1.2 <;> simp [callsOf, fmt_Println]

/-- C10: every descriptor returned by `daemonCmds` carries the short description of its
own identifier, with the fixed texts of the constants `installD` .. `statusD`, and the
five descriptions are pairwise distinct. -/
theorem daemonCmds_descriptions {σ ε : Type} (w : cobraSrvWrapper σ ε) :
    (daemonCmds w).map (fun c => (c.Use, c.Short)) =
      [("install", "install the harmony-watchdog service"),
       ("remove", "remove the harmony-watchdog service"),
       ("start", "start the harmony-watchdog service"),
       ("stop", "stop the harmony-watchdog service"),
       ("status", "check status of the harmony-watchdog service")] ∧
    ((daemonCmds w).map (fun c => c.Short)).Nodup := by
  refine ⟨rfl, ?_⟩
  show (["install the harmony-watchdog service", "remove the harmony-watchdog service",
    "start the harmony-watchdog service", "stop the harmony-watchdog service",
    "check status of the harmony-watchdog service"] : List String).Nodup
  decide

/-! ## Process entry point -/

/-- The whole final state of `main` when `rootCmd.Execute` returns the error `e`. -/
theorem main_of_error {σ ε : Type} [GoError ε] (Execute : σ → Run σ ε) (s0 : σ) (e : ε)
    (h : (Execute s0).err = some e) :
    main Execute s0 =
      { svc := (Execute s0).state,
        trace := [Event.profileStart ProfileMode.CPUProfile,
                  Event.execute (Execute s0).effects,
                  Event.stdout (GoError.Error e ++ "\n"),
                  Event.osExit (-1)],
        deferred := [Deferred.profileStop],
        exitCode := some (-1) } := by
  simp [main, h, os_Exit, Proc.Println, Proc.emit, deferCall, profile_Start]

/-- The whole final state of `main` when `rootCmd.Execute` returns nil. -/
theorem main_of_nil {σ ε : Type} [GoError ε] (Execute : σ → Run σ ε) (s0 : σ)
    (h : (Execute s0).err = none) :
    main Execute s0 =
      { svc := (Execute s0).state,
        trace := [Event.profileStart ProfileMode.CPUProfile,
                  Event.execute (Execute s0).effects,
                  Event.profileStop],
        deferred := [],
        exitCode := some 0 } := by
  simp [main, h, returnFromMain, runDeferred, Proc.emit, deferCall, profile_Start]

/-- How often `Stop` runs in `main`: once when `rootCmd.Execute` returns nil, never when
it returns an error. -/
theorem main_stopCount {σ ε : Type} [GoError ε] (Execute : σ → Run σ ε) (s0 : σ) :
    stopCount (main Execute s0).trace = if (Execute s0).err.isSome then 0 else 1 := by
  cases h : (Execute s0).err with
  | none => rw [main_of_nil Execute s0 h]; simp [stopCount]
  | some e => rw [main_of_error Execute s0 e h]; simp [stopCount]

/-- C1 (evaluation at the failing input): when `rootCmd.Execute` returns an error, here
the error of a failed `install`, `main` terminates through `os.Exit(-1)` with the
deferred `Stop` still pending: `Stop` has run zero times, not once. -/
theorem main_error_path_skips_stop :
    (failingExecute 0).err = some "Service has already been installed" ∧
      stopCount (main failingExecute 0).trace = 0 ∧
      (main failingExecute 0).deferred = [Deferred.profileStop] ∧
      (main failingExecute 0).exitCode = some (-1) ∧
      (main failingExecute 0).trace =
        [Event.profileStart ProfileMode.CPUProfile,
         Event.execute [Effect.call Op.Install],
         Event.stdout "Service has already been installed\n",
         Event.osExit (-1)] := by
  refine ⟨rfl, ?_, rfl, rfl, rfl⟩
  decide

/-- C5: the exit status of `main` depends only on whether `rootCmd.Execute` returned an
error: for every non-nil error the exit code is -1, which the shell sees as 255, a
non-zero value; when it returned nil the exit code and status are 0. -/
theorem main_exit_status {σ ε : Type} [GoError ε] (Execute : σ → Run σ ε) (s0 : σ) :
    (main Execute s0).exitCode = some (if (Execute s0).err.isSome then -1 else 0) ∧
      exitStatus (main Execute s0) = some (if (Execute s0).err.isSome then 255 else 0) ∧
      (255 : Nat) ≠ 0 := by
  cases h : (Execute s0).err with
  | none => rw [main_of_nil Execute s0 h]; simp [exitStatus]
  | some e => rw [main_of_error Execute s0 e h]; simp [exitStatus]

/-- C6: for every non-nil error `e` returned by `rootCmd.Execute`, `main` writes the text
of `e` followed by a newline on standard output exactly once, and that write comes right
before the process is terminated by `os.Exit`; when `rootCmd.Execute` returns nil, `main`
itself writes nothing on standard output. -/
theorem main_prints_error {σ ε : Type} [GoError ε] (Execute : σ → Run σ ε) (s0 : σ) :
    match (Execute s0).err with
    | some e =>
      mainWrites (main Execute s0).trace = [GoError.Error e ++ "\n"] ∧
        (main Execute s0).trace =
          [Event.profileStart ProfileMode.CPUProfile, Event.execute (Execute s0).effects] ++
            [Event.stdout (GoError.Error e ++ "\n"), Event.osExit (-1)]
    | none => mainWrites (main Execute s0).trace = [] := by
  cases h : (Execute s0).err with
  | none => rw [main_of_nil Execute s0 h]; simp [mainWrites]
  | some e => rw [main_of_error Execute s0 e h]; simp [mainWrites]

/-- C9: in every trace of `main`, `profile.Start(profile.CPUProfile)` is the first effect
and the call of `rootCmd.Execute` is the second; the trace holds exactly one
`profile.Start` and exactly one call of `rootCmd.Execute`. -/
theorem main_starts_profile_first {σ ε : Type} [GoError ε] (Execute : σ → Run σ ε)
    (s0 : σ) :
    (main Execute s0).trace.head? = some (Event.profileStart ProfileMode.CPUProfile) ∧
      (main Execute s0).trace.take 2 =
        [Event.profileStart ProfileMode.CPUProfile, Event.execute (Execute s0).effects] ∧
      ((main Execute s0).trace.filter Event.isProfileStart).length = 1 ∧
      ((main Execute s0).trace.filter Event.isExecute).length = 1 := by
  cases h : (Execute s0).err with
  | none => rw [main_of_nil Execute s0 h]; simp [Event.isProfileStart, Event.isExecute]
  | some e => rw [main_of_error Execute s0 e h]; simp [Event.isProfileStart, Event.isExecute]

/-- Dispatch over `daemonCmds` fails, with no effect, for an empty argument list or a
first argument that is none of the five identifiers. -/
theorem rootCmd_Execute_unknown {σ ε : Type} (w : cobraSrvWrapper σ ε)
    (dispatchFailure : List String → ε) (osArgs : List String) (s : σ)
    (h : osArgs = [] ∨ ∃ name rest, osArgs = name :: rest ∧
      name ∉ ["install", "remove", "start", "stop", "status"]) :
    rootCmd_Execute (daemonCmds w) dispatchFailure osArgs s =
      { err := some (dispatchFailure osArgs), state := s, effects := [] } := by
  rcases h with h | ⟨name, rest, h, hname⟩
  · subst h; rfl
  · subst h
    simp only [List.mem_cons, List.mem_singleton, not_or, List.not_mem_nil, or_false] at hname
    obtain ⟨h1, h2, h3, h4, h5⟩ := hname
    have e1 : ("install" == name) = false := by simpa using Ne.symm h1
    have e2 : ("remove" == name) = false := by simpa using Ne.symm h2
    have e3 : ("start" == name) = false := by simpa using Ne.symm h3
    have e4 : ("stop" == name) = false := by simpa using Ne.symm h4
    have e5 : ("status" == name) = false := by simpa using Ne.symm h5
    simp [rootCmd_Execute, daemonCmds, List.find?, e1, e2, e3, e4, e5]

/-- C8: when the process is invoked with no subcommand, or with a first argument that is
none of install, remove, start, stop, status, command execution returns the dispatch
failure, the process exits with the non-zero status 255, and no Service Provider
operation is called. -/
theorem unknown_subcommand_fails {σ ε : Type} [GoError ε] (w : cobraSrvWrapper σ ε)
    (dispatchFailure : List String → ε) (osArgs : List String) (s0 : σ)
    (h : osArgs = [] ∨ ∃ name rest, osArgs = name :: rest ∧
      name ∉ ["install", "remove", "start", "stop", "status"]) :
    (rootCmd_Execute (daemonCmds w) dispatchFailure osArgs s0).err =
        some (dispatchFailure osArgs) ∧
      exitStatus (main (rootCmd_Execute (daemonCmds w) dispatchFailure osArgs) s0) = some 255 ∧
      serviceCalls (main (rootCmd_Execute (daemonCmds w) dispatchFailure osArgs) s0).trace
        = [] := by
  have hx := rootCmd_Execute_unknown w dispatchFailure osArgs s0 h
  have he : (rootCmd_Execute (daemonCmds w) dispatchFailure osArgs s0).err =
      some (dispatchFailure osArgs) := by rw [hx]
  refine ⟨he, ?_, ?_⟩
  · rw [main_of_error _ s0 _ he]; simp [exitStatus]
  · rw [main_of_error _ s0 _ he, hx]; simp [serviceCalls, callsOf]

/-- Witness of C8: the process invoked with the unrecognized subcommand `restart`. -/
theorem unknown_subcommand_fails_witness :
    (rootCmd_Execute (daemonCmds (cobraSrvWrapper.mk okService)) unknownCommand
        ["restart"] 0).err = some (unknownCommand ["restart"]) ∧
      exitStatus (main (rootCmd_Execute (daemonCmds (cobraSrvWrapper.mk okService))
        unknownCommand ["restart"]) 0) = some 255 ∧
      serviceCalls (main (rootCmd_Execute (daemonCmds (cobraSrvWrapper.mk okService))
        unknownCommand ["restart"]) 0).trace = [] :=
  unknown_subcommand_fails (cobraSrvWrapper.mk okService) unknownCommand ["restart"] 0
    (Or.inr ⟨"restart", [], rfl, by decide⟩)

end HarmonyOps
